import Mathlib

/-!
Verification of the local-chat core against its natural-language spec.

The development shallowly embeds the relevant source files:
* WebRTCManager (connection module): channel state, message dispatch,
  send, cleanup, destroy, the late gathering callback.
* app.js session layer: the application state, the callbacks installed by
  setupWebRTCHandlers, and broadcastMessage.
* StateManager (pub/sub store): listener registration, removal, emit.
* SignalCodec: compressDescription / decompressDescription, with the JSON
  serialization of a session descriptor implemented and the ambient
  LZString library modelled from the spec as an external inverse pair.

Browser-only concerns (DOM rendering, toasts, QR drawing, IndexedDB) are
represented as inert effect tokens where the control flow needs them and
omitted where it does not.
-/

namespace LocalChat

/-- A user profile as held in application state: id, display name, avatar. -/
structure User where
  uid : String
  name : String
  avatar : String
deriving DecidableEq

/-- One data channel. readyState mirrors the RTCDataChannel field; sendError
models the outcome of the browser-level channel.send call: none means the
transport accepts the frame, some e means channel.send throws e
(for example OperationError when the buffered amount overflows). -/
structure ChannelRef where
  cid : Nat
  readyState : String
  sendError : Option String
deriving DecidableEq

/-- The RTCPeerConnection as far as the embedded code reads it: its
localDescription, accessed by the gathering-completion callback. -/
structure PC where
  localDescription : String
deriving DecidableEq

/-- A wire envelope. The protocol is a closed set of JSON objects with a
type tag and per-type fields (spec section 6); fields a given type does not
carry keep their defaults. Envelope types that carry a user always do so in
this protocol, hence the field is not optional. -/
structure Envelope where
  ty : String
  text : String := ""
  user : User := { uid := "", name := "", avatar := "" }
  userId : String := ""
deriving DecidableEq

/-- Effects emitted by WebRTCManager.handleMessage: invocations of the
callbacks installed by the application, plus the alert and page reload the
close and kick cases perform. -/
inductive MgrEffect where
  | callMessage (msg : Envelope)
  | callPeerJoin (u : User)
  | callPeerLeave (userId : String)
  | callIdentityRequest
  | alertBox (s : String)
  | reload
  | emitReady (desc : String)
deriving DecidableEq

/-- The WebRTCManager state: the single data channel, the peer connection,
the role flag, and whether each callback slot is populated (the code guards
each invocation with a truthiness check). -/
structure Manager where
  channel : Option ChannelRef
  localPC : Option PC
  isHost : Bool
  onMessage : Bool
  onPeerJoin : Bool
  onPeerLeave : Bool
  onConnected : Bool
  onDisconnected : Bool
  onIdentityRequest : Bool
deriving DecidableEq

/-- WebRTCManager.cleanup: closes and nulls the channel and the connection
and resets the role flag. Callback slots are untouched. -/
def cleanup (m : Manager) : Manager :=
  { m with channel := none, localPC := none, isHost := false }

/-- WebRTCManager.destroy: cleanup followed by nulling every callback. -/
def destroy (m : Manager) : Manager :=
  { cleanup m with
      onMessage := false, onPeerJoin := false, onPeerLeave := false,
      onConnected := false, onDisconnected := false,
      onIdentityRequest := false }

/-- WebRTCManager.handleMessage: the switch over msg.type. Each recognized
case invokes the matching callback when it is set; close and kick call
cleanup, show an alert and reload the page, with no role check. An
unrecognized type falls through the switch and does nothing. -/
def handleMessage (m : Manager) (msg : Envelope) : Manager × List MgrEffect :=
  if msg.ty = "identity" then
    (m, if m.onPeerJoin then [MgrEffect.callPeerJoin msg.user] else [])
  else if msg.ty = "chat" then
    (m, if m.onMessage then [MgrEffect.callMessage msg] else [])
  else if msg.ty = "system" then
    (m, if m.onMessage then [MgrEffect.callMessage msg] else [])
  else if msg.ty = "req-identity" then
    (m, if m.onIdentityRequest then [MgrEffect.callIdentityRequest] else [])
  else if msg.ty = "close" then
    (cleanup m, [MgrEffect.alertBox "Host ended the session", MgrEffect.reload])
  else if msg.ty = "leave" then
    (m, if m.onPeerLeave then [MgrEffect.callPeerLeave msg.userId] else [])
  else if msg.ty = "kick" then
    (cleanup m, [MgrEffect.alertBox "You were removed from the group", MgrEffect.reload])
  else (m, [])

/-- WebRTCManager.send: if the channel exists and its readyState is open it
calls channel.send on the serialized frame and returns true, else returns
false. The channel.send call is not wrapped in try/catch, so a
transport-level failure propagates as an exception (the error branch)
instead of producing a return value. -/
def Manager.send (m : Manager) (frame : String) : Except String Bool :=
  match m.channel with
  | none => Except.ok false
  | some ch =>
    if ch.readyState = "open" then
      match ch.sendError with
      | none => Except.ok true
      | some e => Except.error e
    else Except.ok false

/-- WebRTCManager.handleAnswer: throws when no local peer connection exists;
otherwise it decompresses the token and applies the remote description (an
external transport call tracked as a success with unchanged embedded
state). -/
def handleAnswer (m : Manager) (answerData : List Char) : Except String Manager :=
  match m.localPC with
  | none => Except.error "No local peer connection"
  | some _ => Except.ok m

/-- The onicecandidate handler installed by createOffer and createAnswer:
on the null candidate (gathering complete) it reads
this.localPC.localDescription and emits localDescriptionReady. There is no
guard on this.localPC, so after cleanup has nulled it the property read
throws a TypeError. Non-null candidates are ignored. The handler performs
no assignment, so it never changes manager state. -/
def onIceCandidate (m : Manager) (candidate : Option String) :
    Except String (List MgrEffect) :=
  match candidate with
  | some _ => Except.ok []
  | none =>
    match m.localPC with
    | some pc => Except.ok [MgrEffect.emitReady pc.localDescription]
    | none => Except.error "TypeError: cannot read localDescription of null"

/-! ### Application session layer (app.js) -/

/-- A peer record as stored by the application: the user profile carried by
the identity envelope and a reference to the data channel captured at join
time. -/
structure PeerRec where
  user : User
  channel : Option ChannelRef
deriving DecidableEq

/-- The application state fields the session logic reads and writes. peers
is the registry, a JavaScript object whose keys are the Date.now()
millisecond timestamps used at insertion, modelled as an association list
with object-assignment (overwrite or append) semantics. -/
structure AppState where
  user : User
  isHost : Bool
  isConnected : Bool
  peers : List (Nat × PeerRec)
deriving DecidableEq

/-- JavaScript object-style assignment on the peers registry: overwrite the
value at an existing key, otherwise append the new key. -/
def setPeer : List (Nat × PeerRec) → Nat → PeerRec → List (Nat × PeerRec)
  | [], k, v => [(k, v)]
  | (k0, v0) :: rest, k, v =>
    if k0 = k then (k0, v) :: rest else (k0, v0) :: setPeer rest k v

/-- Observable actions of the application layer: rendering a chat bubble,
appending a system line, a send on one peer channel, a send on the manager
channel, an alert, a page reload. -/
inductive AppEffect where
  | render (u : User) (text : String)
  | systemNote (text : String)
  | chanSend (cid : Nat) (msg : Envelope)
  | sendIdentity (u : User)
  | alertBox (s : String)
  | reload
deriving DecidableEq

/-- app.js broadcastMessage: a no-op unless hosting; otherwise iterates the
peer registry and sends the serialized message on every peer channel whose
key differs from excludeId and whose readyState is open. -/
def broadcastMessage (st : AppState) (msg : Envelope) (excludeId : Option Nat) :
    List AppEffect :=
  if st.isHost then
    st.peers.filterMap (fun kp =>
      match kp.2.channel with
      | some ch =>
        if some kp.1 ≠ excludeId ∧ ch.readyState = "open" then
          some (AppEffect.chanSend ch.cid msg)
        else none
      | none => none)
  else []

/-- The onMessage callback installed by setupWebRTCHandlers: a chat envelope
is rendered as a remote bubble, a system envelope as a system line. Nothing
else happens; in particular no send is issued. -/
def appOnMessage (st : AppState) (msg : Envelope) : AppState × List AppEffect :=
  if msg.ty = "chat" then (st, [AppEffect.render msg.user msg.text])
  else if msg.ty = "system" then (st, [AppEffect.systemNote msg.text])
  else (st, [])

/-- The onPeerJoin callback: stores a record under the key Date.now() (the
now argument), appends a joined system line, and broadcasts a system joined
notice with a null excludeId over the updated registry. The channel stored
is the manager channel current at that moment. -/
def appOnPeerJoin (now : Nat) (chan : Option ChannelRef) (st : AppState)
    (u : User) : AppState × List AppEffect :=
  let st1 := { st with peers := setPeer st.peers now { user := u, channel := chan } }
  (st1, AppEffect.systemNote (u.name ++ " joined.") ::
    broadcastMessage st1 { ty := "system", text := u.name ++ " joined." } none)

/-- The onPeerLeave callback: indexes the registry with the carried userId;
when a record exists under that property name, appends a disconnect line
and deletes it. Registry keys are Date.now() values, so in JavaScript the
property name is the decimal rendering of the timestamp, mirrored here by
comparing userId against the rendered key. -/
def appOnPeerLeave (st : AppState) (userId : String) : AppState × List AppEffect :=
  match st.peers.find? (fun kp => toString kp.1 = userId) with
  | some kp =>
    ({ st with peers := st.peers.filter (fun kp2 => !(toString kp2.1 = userId)) },
     [AppEffect.systemNote (kp.2.user.name ++ " disconnected.")])
  | none => (st, [])

/-- Interpretation of one manager callback effect by the handlers installed
in setupWebRTCHandlers. callIdentityRequest replies with the local identity
through the manager channel; alert and reload pass through. -/
def appInterpret (now : Nat) (chan : Option ChannelRef) (st : AppState)
    (e : MgrEffect) : AppState × List AppEffect :=
  match e with
  | MgrEffect.callMessage msg => appOnMessage st msg
  | MgrEffect.callPeerJoin u => appOnPeerJoin now chan st u
  | MgrEffect.callPeerLeave userId => appOnPeerLeave st userId
  | MgrEffect.callIdentityRequest => (st, [AppEffect.sendIdentity st.user])
  | MgrEffect.alertBox s => (st, [AppEffect.alertBox s])
  | MgrEffect.reload => (st, [AppEffect.reload])
  | MgrEffect.emitReady _ => (st, [])

/-- One inbound envelope processed end to end: WebRTCManager.handleMessage
dispatches, and each resulting callback effect is interpreted by the
application handlers in order. Returns the new application state, the new
manager state, and the application-level effects. -/
def appStep (now : Nat) (chan : Option ChannelRef) (st : AppState)
    (m : Manager) (msg : Envelope) : (AppState × Manager) × List AppEffect :=
  let r := handleMessage m msg
  let folded := r.2.foldl
    (fun (acc : AppState × List AppEffect) e =>
      let s := appInterpret now chan acc.1 e
      (s.1, acc.2 ++ s.2))
    (st, [])
  ((folded.1, r.1), folded.2)

/-- Whether an application effect is a send on a peer channel. -/
def isChanSend : AppEffect → Bool
  | AppEffect.chanSend _ _ => true
  | _ => false

/-- Whether the manager has a channel in the open state. -/
def channelOpen (m : Manager) : Bool :=
  match m.channel with
  | some ch => ch.readyState = "open"
  | none => false

/-- The transport outcome the channel would report for a send, when a
channel exists. -/
def transportError (m : Manager) : Option String :=
  match m.channel with
  | some ch => ch.sendError
  | none => none

/-! ### StateManager pub/sub (state module) -/

/-- One registered listener for a fixed event key. lid models the function
reference identity used by indexOf; act is what the callback does when
invoked: remove the listener whose reference is the given id (a call to
off from inside the callback), or nothing. -/
structure Listener where
  lid : Nat
  act : Option Nat
deriving DecidableEq

/-- StateManager.off for one event key: indexOf on the live callback array
followed by splice, so the first listener with the matching reference is
removed; absent references leave the array unchanged. -/
def removeFirst : List Listener → Nat → List Listener
  | [], _ => []
  | l :: rest, r => if l.lid = r then rest else l :: removeFirst rest r

/-- Running one callback body against the live callback array. -/
def applyAct (l : Listener) (arr : List Listener) : List Listener :=
  match l.act with
  | some r => removeFirst arr r
  | none => arr

/-- StateManager.emit iterates the live callback array with forEach:
index-based visits that re-check the current length each step, so a splice
performed by a callback shifts later elements under the iteration. fuel
bounds the recursion; emitIds supplies enough for the loop to finish. The
result is the list of listener references invoked, in order. -/
def emitLoopF : Nat → Nat → List Listener → List Nat → List Nat
  | 0, _, _, invoked => invoked
  | fuel + 1, i, arr, invoked =>
    if h : i < arr.length then
      emitLoopF fuel (i + 1) (applyAct (arr.get ⟨i, h⟩) arr)
        (invoked ++ [(arr.get ⟨i, h⟩).lid])
    else invoked

/-- StateManager.emit on one event key: the references invoked during the
dispatch, in invocation order. -/
def emitIds (ls : List Listener) : List Nat :=
  emitLoopF (ls.length + 1) 0 ls []

/-! ### Wire frame construction (send) -/

/-- JavaScript object-literal assignment: overwrite the value under an
existing key, otherwise append the pair. -/
def setKey {V : Type} : List (String × V) → String → V → List (String × V)
  | [], k, v => [(k, v)]
  | (k0, v0) :: rest, k, v =>
    if k0 = k then (k0, v) :: rest else (k0, v0) :: setKey rest k v

/-- Property lookup: the value under the first matching key. -/
def getKey {V : Type} : List (String × V) → String → Option V
  | [], _ => none
  | (k0, v0) :: rest, k => if k0 = k then some v0 else getKey rest k

/-- The value of the last binding of a key in a payload, the one a spread
leaves in force when the payload repeats the key. -/
def getKeyLast {V : Type} : List (String × V) → String → Option V
  | [], _ => none
  | (k0, v0) :: rest, k =>
    match getKeyLast rest k with
    | some v => some v
    | none => if k0 = k then some v0 else none

/-- The object literal built by WebRTCManager.send for the wire frame: the
type tag first, then every payload entry spread over it in order, each
entry assigned with overwrite semantics. -/
def buildFrame {V : Type} (tyv : V) (payload : List (String × V)) :
    List (String × V) :=
  payload.foldl (fun o kv => setKey o kv.1 kv.2) [("type", tyv)]

/-! ### SignalCodec: compressDescription / decompressDescription

The descriptor serialized by the code is the session description object,
a two-field JSON object carrying the negotiation kind and the sdp text.
JSON.stringify and JSON.parse are embedded for this shape, characters
represented as lists; LZString is an ambient CDN library, absent from the
source tree, modelled from the spec as an external pair. -/

/-- A connection descriptor: the negotiation kind (offer or answer — the
codec never inspects it) and the sdp body. Strings are lists of
characters. -/
structure Descriptor where
  kind : List Char
  sdp : List Char
deriving DecidableEq

/-- JSON.stringify escaping of one character, for the characters session
descriptors contain (printable text plus CR, LF, TAB). -/
def escapeChar (c : Char) : List Char :=
  if c = '"' then ['\\', '"']
  else if c = '\\' then ['\\', '\\']
  else if c = '\n' then ['\\', 'n']
  else if c = '\r' then ['\\', 'r']
  else if c = '\t' then ['\\', 't']
  else [c]

/-- JSON string-body escaping. -/
def escapeStr : List Char → List Char
  | [] => []
  | c :: s => escapeChar c ++ escapeStr s

/-- JSON escape-sequence decoding for one escaped character. -/
def unescapeChar (e : Char) : Option Char :=
  if e = '"' then some '"'
  else if e = '\\' then some '\\'
  else if e = 'n' then some '\n'
  else if e = 'r' then some '\r'
  else if e = 't' then some '\t'
  else if e = '/' then some '/'
  else if e = 'b' then some (Char.ofNat 8)
  else if e = 'f' then some (Char.ofNat 12)
  else none

/-- JSON string-body scanning: consume characters up to the closing quote,
decoding escapes. The Boolean records whether the previous character was an
unconsumed backslash. Returns the decoded body and the rest of the
input. -/
def scanJString : List Char → Bool → Option (List Char × List Char)
  | [], _ => none
  | c :: rest, true =>
    match unescapeChar c, scanJString rest false with
    | some u, some (s, r) => some (u :: s, r)
    | _, _ => none
  | c :: rest, false =>
    if c = '"' then some ([], rest)
    else if c = '\\' then scanJString rest true
    else
      match scanJString rest false with
      | some (s, r) => some (c :: s, r)
      | none => none

/-- JSON string-body scanning from the ordinary state. -/
def parseJString (l : List Char) : Option (List Char × List Char) :=
  scanJString l false

/-- Consume an expected literal fragment from the input. -/
def dropLit : List Char → List Char → Option (List Char)
  | [], s => some s
  | _ :: _, [] => none
  | c :: p, d :: s => if c = d then dropLit p s else none

/-- The opening brace character. -/
def lbrace : Char := Char.ofNat 123

/-- The closing brace character. -/
def rbrace : Char := Char.ofNat 125

/-- The literal before the kind value in the serialized descriptor. -/
def litHead : List Char := "\x7b\"type\":\"".toList

/-- The literal between the kind value and the sdp value. -/
def litMid : List Char := ",\"sdp\":\"".toList

/-- JSON.stringify of a session description object: the fixed two-field
object layout with both string values escaped. -/
def jsonStringifyDesc (d : Descriptor) : List Char :=
  litHead ++ escapeStr d.kind ++ '"' :: (litMid ++ escapeStr d.sdp ++ '"' :: [rbrace])

/-- JSON.parse for the descriptor shape: the fixed layout is consumed and
the two string bodies decoded; no field content is inspected, so any kind
and any sdp text decode. -/
def jsonParseDesc (s : List Char) : Option Descriptor :=
  match dropLit litHead s with
  | none => none
  | some s1 =>
    match parseJString s1 with
    | none => none
    | some (k, s2) =>
      match dropLit litMid s2 with
      | none => none
      | some s3 =>
        match parseJString s3 with
        | none => none
        | some (b, s4) =>
          if s4 = [rbrace] then some { kind := k, sdp := b } else none

/-- Modelled from the spec: the ambient LZString global, a CDN library not
in the source tree. The spec treats it as the compression half of the
SignalCodec, a deterministic lossless text encoding; it is modelled as an
abstract pair of total functions. -/
structure LZCodec where
  compressToBase64 : List Char → List Char
  decompressFromBase64 : List Char → List Char

/-- WebRTCManager.compressDescription: JSON.stringify, then, when the
LZString global is defined, LZString.compressToBase64; otherwise the plain
JSON text (the typeof guard in the source). -/
def compressDescription (lz : Option LZCodec) (d : Descriptor) : List Char :=
  match lz with
  | some z => z.compressToBase64 (jsonStringifyDesc d)
  | none => jsonStringifyDesc d

/-- WebRTCManager.decompressDescription: when LZString is defined,
LZString.decompressFromBase64 then JSON.parse, otherwise JSON.parse of the
input directly. No validation beyond JSON structure is performed. -/
def decompressDescription (lz : Option LZCodec) (s : List Char) : Option Descriptor :=
  match lz with
  | some z => jsonParseDesc (z.decompressFromBase64 s)
  | none => jsonParseDesc s

/-- The characters whose JSON escaping the embedding covers: everything
from space upward plus LF, CR, TAB — the character set of session
descriptors. -/
def validStr (s : List Char) : Bool :=
  s.all (fun c => decide (32 ≤ c.toNat) || decide (c = '\n') ||
    decide (c = '\r') || decide (c = '\t'))

/-- A descriptor whose two strings stay inside the covered character set. -/
def validDesc (d : Descriptor) : Bool :=
  validStr d.kind && validStr d.sdp

/-! ### Codec lemmas and the round-trip theorem -/

/-- Consuming a literal it was serialized with leaves the tail. -/
theorem dropLit_append (p s : List Char) : dropLit p (p ++ s) = some s := by
  induction p with
  | nil => rfl
  | cons c p ih => simp [dropLit, ih]

/-- Scanning an escaped string body up to its closing quote recovers the
original body and the rest of the input. -/
theorem parseJString_escape (s rest : List Char) :
    parseJString (escapeStr s ++ '"' :: rest) = some (s, rest) := by
  unfold parseJString
  induction s with
  | nil => simp [escapeStr, scanJString]
  | cons c s ih =>
    by_cases h1 : c = '"'
    · subst h1; simp [escapeStr, escapeChar, scanJString, unescapeChar, ih]
    · by_cases h2 : c = '\\'
      · subst h2; simp [escapeStr, escapeChar, scanJString, unescapeChar, ih]
      · by_cases h3 : c = '\n'
        · subst h3; simp [escapeStr, escapeChar, scanJString, unescapeChar, ih]
        · by_cases h4 : c = '\r'
          · subst h4; simp [escapeStr, escapeChar, scanJString, unescapeChar, ih]
          · by_cases h5 : c = '\t'
            · subst h5; simp [escapeStr, escapeChar, scanJString, unescapeChar, ih]
            · simp [escapeStr, escapeChar, scanJString, h1, h2, h3, h4, h5, ih]

/-- JSON.parse of JSON.stringify recovers the descriptor. -/
theorem jsonParse_stringify (d : Descriptor) :
    jsonParseDesc (jsonStringifyDesc d) = some d := by
  simp [jsonParseDesc, jsonStringifyDesc, dropLit_append, parseJString_escape]

/-- C2: codec round-trip. For every descriptor within the covered character
set, decompressDescription inverts compressDescription, in both branches of
the typeof guard: without the LZString global they are JSON.parse and
JSON.stringify, and with it the external pair (assumed inverse per its
contract, as the library is not part of the source tree) wraps the same
JSON step. The round-trip holds for arbitrary kind and sdp content, so
decoding performs no semantic validation beyond JSON structure. -/
theorem descriptor_roundtrip (lz : Option LZCodec)
    (hlz : ∀ z, lz = some z → ∀ s, z.decompressFromBase64 (z.compressToBase64 s) = s)
    (d : Descriptor) (hd : validDesc d = true) :
    decompressDescription lz (compressDescription lz d) = some d := by
  cases lz with
  | none =>
    simpa [decompressDescription, compressDescription] using jsonParse_stringify d
  | some z =>
    simp [decompressDescription, compressDescription, hlz z rfl,
      jsonParse_stringify d]

/-- A concrete descriptor with CRLF-separated sdp lines. -/
def demoDesc : Descriptor :=
  { kind := "offer".toList, sdp := "v=0\r\na=ice\r\n".toList }

/-- Witness for C2: the round-trip theorem applied at a concrete descriptor
in the plain-JSON branch. -/
theorem descriptor_roundtrip_witness :
    validDesc demoDesc = true ∧
    decompressDescription none (compressDescription none demoDesc) = some demoDesc :=
  ⟨by decide, descriptor_roundtrip none (fun z h => nomatch h) demoDesc (by decide)⟩

/-! ### send: success indicator and transport failure (C5) -/

/-- An open channel whose transport rejects the frame. -/
def failChan : ChannelRef :=
  { cid := 7, readyState := "open", sendError := some "OperationError" }

/-- A connected manager in front of the failing channel. -/
def failMgr : Manager :=
  { channel := some failChan, localPC := some { localDescription := "d" },
    isHost := false, onMessage := true, onPeerJoin := true, onPeerLeave := true,
    onConnected := true, onDisconnected := true, onIdentityRequest := true }

/-- C5 counterexample: with the channel connected and open, a
transport-level send failure propagates out of send as an exception; the
call does not return false, and does not return any Boolean at all, against
the claim that send never raises and returns false on transport failure. -/
theorem send_raises_on_transport_failure :
    channelOpen failMgr = true ∧
    Manager.send failMgr "frame" = Except.error "OperationError" ∧
    ∀ b : Bool, Manager.send failMgr "frame" ≠ Except.ok b := by
  refine ⟨rfl, rfl, ?_⟩
  intro b h
  simp [Manager.send, failMgr, failChan] at h

/-- C5 amended: send returns true exactly when the channel is present, open
and the transport accepts the frame; it returns false exactly when no open
channel exists; and it propagates an exception exactly when the channel is
open but the transport-level send fails. -/
theorem send_characterization (m : Manager) (frame : String) :
    (Manager.send m frame = Except.ok true ↔
      channelOpen m = true ∧ transportError m = none) ∧
    (Manager.send m frame = Except.ok false ↔ channelOpen m = false) ∧
    (∀ e, Manager.send m frame = Except.error e ↔
      channelOpen m = true ∧ transportError m = some e) := by
  rcases m with ⟨ch, pc, hostFlag, a1, a2, a3, a4, a5, a6⟩
  cases ch with
  | none => simp [Manager.send, channelOpen, transportError]
  | some c0 =>
    by_cases hro : c0.readyState = "open"
    · cases hse : c0.sendError with
      | none => simp [Manager.send, channelOpen, transportError, hro, hse]
      | some err => simp [Manager.send, channelOpen, transportError, hro, hse]
    · simp [Manager.send, channelOpen, transportError, hro]

/-! ### kick semantics (C6) -/

/-- The kick envelope. -/
def kickEnv : Envelope := { ty := "kick" }

/-- A hosting manager with a live link. -/
def hostMgr : Manager :=
  { channel := some { cid := 1, readyState := "open", sendError := none },
    localPC := some { localDescription := "offer-sdp" }, isHost := true,
    onMessage := true, onPeerJoin := true, onPeerLeave := true,
    onConnected := true, onDisconnected := true, onIdentityRequest := true }

/-- C6 counterexample: a Host receiving kick is not treated as a protocol
error to ignore — the handler has no role guard, so the hosting manager is
cleaned up (channel and connection released) and the page reload is
triggered, tearing the session down. -/
theorem host_kick_tears_down :
    hostMgr.isHost = true ∧
    (handleMessage hostMgr kickEnv).1.channel = none ∧
    (handleMessage hostMgr kickEnv).1.localPC = none ∧
    MgrEffect.reload ∈ (handleMessage hostMgr kickEnv).2 := by decide

/-- C6 amended: every peer — Guest or Host alike — receiving kick
unconditionally tears down its local session: the link state is cleaned up
and an alert plus a page reload follow; no role check is performed. The
Guest half of the original claim is this statement at isHost false. -/
theorem kick_unconditional_teardown (m : Manager) :
    handleMessage m kickEnv =
      (cleanup m,
        [MgrEffect.alertBox "You were removed from the group", MgrEffect.reload]) := rfl

/-! ### close idempotence and terminality (C8) -/

/-- C8: cleanup is idempotent (a second call yields the same state), so is
destroy, and destroy after cleanup equals destroy directly. Once cleaned,
the link stays closed under every operation on it: send reports false,
no inbound envelope restores a channel or connection (close and kick just
clean again), and handleAnswer throws its missing-connection error. A fresh
createOffer or createAnswer builds a new RTCPeerConnection, which the spec
treats as a new PeerLink born in Idle, not a transition of the closed
one. -/
theorem close_idempotent_terminal (m : Manager) (msg : Envelope)
    (d : List Char) (f : String) :
    cleanup (cleanup m) = cleanup m ∧
    destroy (destroy m) = destroy m ∧
    destroy (cleanup m) = destroy m ∧
    Manager.send (cleanup m) f = Except.ok false ∧
    (handleMessage (cleanup m) msg).1.channel = none ∧
    (handleMessage (cleanup m) msg).1.localPC = none ∧
    handleAnswer (cleanup m) d = Except.error "No local peer connection" := by
  refine ⟨rfl, rfl, rfl, rfl, ?_, ?_, rfl⟩
  · unfold handleMessage
    repeat' split
    all_goals rfl
  · unfold handleMessage
    repeat' split
    all_goals rfl

/-! ### late gathering-completion callback (C9) -/

/-- A manager after cleanup: channel and connection nulled. -/
def closedMgr : Manager :=
  { channel := none, localPC := none, isHost := false,
    onMessage := true, onPeerJoin := true, onPeerLeave := true,
    onConnected := true, onDisconnected := true, onIdentityRequest := true }

/-- C9 counterexample: when the link was closed while gathering was
outstanding, the late gathering-completion callback (the null-candidate
event) is not a safe no-op: the handler reads localDescription off the
nulled connection without any state check, so it throws instead of
succeeding. -/
theorem late_gathering_callback_throws :
    onIceCandidate closedMgr none =
      Except.error "TypeError: cannot read localDescription of null" ∧
    ∀ effs, onIceCandidate closedMgr none ≠ Except.ok effs := by
  refine ⟨rfl, ?_⟩
  intro effs h
  simp [onIceCandidate, closedMgr] at h

/-- C9 amended: the late null-candidate callback never mutates link state
(it only emits), but it is not guarded: with the connection nulled by close
it throws a TypeError; with a live connection it emits
localDescriptionReady; non-null candidates are ignored. -/
theorem late_gathering_callback_behavior (m : Manager) (c : String) (pc : PC) :
    onIceCandidate { m with localPC := none } none =
      Except.error "TypeError: cannot read localDescription of null" ∧
    onIceCandidate m (some c) = Except.ok [] ∧
    onIceCandidate { m with localPC := some pc } none =
      Except.ok [MgrEffect.emitReady pc.localDescription] :=
  ⟨rfl, rfl, rfl⟩

/-! ### Frame construction lemmas (C10) -/

/-- Lookup after object assignment: the assigned key reads back the new
value, other keys are untouched. -/
theorem getKey_setKey {V : Type} (o : List (String × V)) (k0 k : String) (v0 : V) :
    getKey (setKey o k0 v0) k = if k0 = k then some v0 else getKey o k := by
  induction o with
  | nil => simp [setKey, getKey]
  | cons kv rest ih =>
    rcases kv with ⟨k1, v1⟩
    by_cases h : k1 = k0
    · subst h
      by_cases hk : k1 = k <;> simp [setKey, getKey, hk]
    · by_cases hk1 : k1 = k
      · subst hk1
        have hk0 : ¬k0 = k1 := fun hh => h hh.symm
        simp [setKey, getKey, h, hk0, ih]
      · simp [setKey, getKey, h, hk1, ih]

/-- Folding spread assignments over an accumulator object: a key reads back
the last payload binding when one exists, and the accumulator value
otherwise. -/
theorem getKey_spread {V : Type} (payload : List (String × V))
    (o : List (String × V)) (k : String) :
    getKey (payload.foldl (fun acc kv => setKey acc kv.1 kv.2) o) k =
      match getKeyLast payload k with
      | some v => some v
      | none => getKey o k := by
  induction payload generalizing o with
  | nil => simp [getKeyLast]
  | cons kv rest ih =>
    rcases kv with ⟨k0, v0⟩
    simp only [List.foldl]
    rw [ih]
    cases hlast : getKeyLast rest k with
    | some v => simp [getKeyLast, hlast]
    | none =>
      simp only [getKeyLast, hlast, getKey_setKey]
      by_cases hk : k0 = k <;> simp [hk]

/-- C10: the wire frame is the object literal with the type tag spread over
by the payload. When the payload carries no binding for the key type, the
frame's type field is the type argument; when it does, the payload's (last)
binding silently overrides the envelope's type tag. -/
theorem frame_type_tag {V : Type} (tyv : V) (payload : List (String × V)) :
    getKey (buildFrame tyv payload) "type" =
      match getKeyLast payload "type" with
      | some v => some v
      | none => some tyv := by
  unfold buildFrame
  rw [getKey_spread]
  cases getKeyLast payload "type" <;> simp [getKey]

/-! ### Dispatch over the live listener array (C7) -/

/-- The dispatch that skips: a listener that unsubscribes itself during the
dispatch, followed by a bystander. -/
def selfRemover : Listener := { lid := 0, act := some 0 }

/-- A listener that does nothing when invoked. -/
def bystander : Listener := { lid := 1, act := none }

/-- C7 counterexample: with listeners registered in order selfRemover then
bystander, the dispatch invokes only selfRemover: its splice shifts
bystander to the index already visited, and the live forEach ends. A
listener registered at dispatch start is never invoked, so iteration is not
over a snapshot. -/
theorem dispatch_skips_after_removal :
    emitIds [selfRemover, bystander] = [0] ∧
    List.map Listener.lid [selfRemover, bystander] = [0, 1] := by decide

/-- With no removal performed by any callback, the array never changes
under the loop, and the remaining suffix is invoked in order. -/
theorem emitLoopF_no_removal (arr : List Listener)
    (hp : ∀ l ∈ arr, l.act = none) :
    ∀ (fuel i : Nat) (inv : List Nat), arr.length - i < fuel →
      emitLoopF fuel i arr inv = inv ++ (arr.drop i).map Listener.lid := by
  intro fuel
  induction fuel with
  | zero => intro i inv h; exact absurd h (Nat.not_lt_zero _)
  | succ fuel ih =>
    intro i inv h
    by_cases hi : i < arr.length
    · have hact : arr[i].act = none := hp _ (List.getElem_mem hi)
      have harr : applyAct arr[i] arr = arr := by simp [applyAct, hact]
      have hdrop : arr.drop i = arr[i] :: arr.drop (i + 1) :=
        List.drop_eq_getElem_cons hi
      simp only [emitLoopF, dif_pos hi, List.get_eq_getElem, harr]
      rw [ih (i + 1) _ (by omega), hdrop]
      simp only [List.map_cons, List.append_assoc, List.singleton_append]
    · simp only [emitLoopF, dif_neg hi]
      have hnil : arr.drop i = [] := List.drop_eq_nil_of_le (by omega)
      simp [hnil]

/-- C7 amended: the dispatch iterates the live callback array, not a
snapshot. When no listener removes a listener during the dispatch, every
listener registered at dispatch start is invoked exactly once, in
registration order; a removal performed during the dispatch at or before
the running index shifts the array and skips the following listener, as the
counterexample shows. -/
theorem dispatch_all_without_removal (ls : List Listener)
    (hp : ∀ l ∈ ls, l.act = none) :
    emitIds ls = ls.map Listener.lid := by
  unfold emitIds
  rw [emitLoopF_no_removal ls hp (ls.length + 1) 0 [] (by omega)]
  simp

/-- Two inert listeners. -/
def pureListeners : List Listener := [{ lid := 5, act := none }, { lid := 6, act := none }]

/-- Witness for the C7 amended theorem at a concrete listener list. -/
theorem dispatch_all_without_removal_witness :
    (∀ l ∈ pureListeners, l.act = none) ∧
    emitIds pureListeners = [5, 6] :=
  ⟨by decide, dispatch_all_without_removal pureListeners (by decide)⟩

/-! ### Host relay and the peer registry (C1, C3, C4) -/

/-- The hosting user. -/
def userHost : User := { uid := "h", name := "Hana", avatar := "" }

/-- Guest A. -/
def userA : User := { uid := "a", name := "Ann", avatar := "" }

/-- Guest B. -/
def userB : User := { uid := "b", name := "Bob", avatar := "" }

/-- Guest C. -/
def userC : User := { uid := "c", name := "Cam", avatar := "" }

/-- The open channel to guest A. -/
def chanA : ChannelRef := { cid := 1, readyState := "open", sendError := none }

/-- The open channel to guest B. -/
def chanB : ChannelRef := { cid := 2, readyState := "open", sendError := none }

/-- The open channel to guest C. -/
def chanC : ChannelRef := { cid := 3, readyState := "open", sendError := none }

/-- The Host registry with peers A, B, C under their join timestamps. -/
def hostPeersABC : List (Nat × PeerRec) :=
  [(101, { user := userA, channel := some chanA }),
   (102, { user := userB, channel := some chanB }),
   (103, { user := userC, channel := some chanC })]

/-- A Host session with peers A, B, C. -/
def hostSession : AppState :=
  { user := userHost, isHost := true, isConnected := true, peers := hostPeersABC }

/-- The chat envelope authored by peer A. -/
def chatFromA : Envelope := { ty := "chat", text := "hi", user := userA }

/-- The manager on the Host side whose channel currently points at A's
link, with every application callback installed. -/
def hostLinkMgr : Manager :=
  { channel := some chanA, localPC := some { localDescription := "sdp-h" },
    isHost := true, onMessage := true, onPeerJoin := true, onPeerLeave := true,
    onConnected := true, onDisconnected := true, onIdentityRequest := true }

/-- C1, evaluated at the claim's scenario: the Host with peers A, B, C
receives a chat envelope over A's link. The inbound path renders the
message locally and issues no channel send at all — the message handler
installed by setupWebRTCHandlers never calls broadcastMessage — so the
envelope is not forwarded to B and C, against the relay the claim states.
The last conjunct records what a relay excluding A would have been:
broadcastMessage with A excluded reaches exactly B and C. -/
theorem inbound_chat_not_relayed :
    (appStep 999 (some chanA) hostSession hostLinkMgr chatFromA).2 =
      [AppEffect.render userA "hi"] ∧
    ((appStep 999 (some chanA) hostSession hostLinkMgr chatFromA).2.filter
        isChanSend) = [] ∧
    (appStep 999 (some chanA) hostSession hostLinkMgr chatFromA).1.1 =
      hostSession ∧
    broadcastMessage hostSession chatFromA (some 101) =
      [AppEffect.chanSend 2 chatFromA, AppEffect.chanSend 3 chatFromA] := by
  decide

/-- The identity envelope carrying peer A's profile. -/
def identFromA : Envelope := { ty := "identity", user := userA }

/-- The Host session before any guest joined. -/
def hostSession0 : AppState :=
  { user := userHost, isHost := true, isConnected := true, peers := [] }

/-- The Host after the first identity envelope from A, at 1000 ms. -/
def hostStepOne : (AppState × Manager) × List AppEffect :=
  appStep 1000 (some chanA) hostSession0 hostLinkMgr identFromA

/-- The Host after a second identity envelope from A, at 1001 ms. -/
def hostStepTwo : (AppState × Manager) × List AppEffect :=
  appStep 1001 (some chanA) hostStepOne.1.1 hostStepOne.1.2 identFromA

/-- C3, evaluated at the claim's scenario: two identity envelopes carrying
the same peer profile produce two registry records, not one updated record.
The registry is keyed by the arrival timestamp Date.now() rather than by
the peer id, so each arrival at a new millisecond appends a fresh
record. -/
theorem duplicate_identity_duplicates_record :
    hostStepTwo.1.1.peers.length = 2 ∧
    hostStepTwo.1.1.peers.map (fun kp => kp.2.user) = [userA, userA] := by
  decide

/-- The joining user of the Guest session. -/
def userGuest : User := { uid := "g", name := "Gia", avatar := "" }

/-- The Guest's single channel to the Host. -/
def guestChan : ChannelRef := { cid := 9, readyState := "open", sendError := none }

/-- A Guest session right after connecting, registry empty. -/
def guestSession0 : AppState :=
  { user := userGuest, isHost := false, isConnected := true, peers := [] }

/-- The Guest-side manager with the application callbacks installed. -/
def guestLinkMgr : Manager :=
  { channel := some guestChan, localPC := some { localDescription := "sdp-g" },
    isHost := false, onMessage := true, onPeerJoin := true, onPeerLeave := true,
    onConnected := true, onDisconnected := true, onIdentityRequest := true }

/-- The identity envelope carrying the Host profile. The Host sends its
identity both on channel open and in reply to req-identity, so a Guest
receives it twice in the normal handshake. -/
def identFromHost : Envelope := { ty := "identity", user := userHost }

/-- The Guest after the first Host identity envelope, at 2000 ms. -/
def guestStepOne : (AppState × Manager) × List AppEffect :=
  appStep 2000 (some guestChan) guestSession0 guestLinkMgr identFromHost

/-- The Guest after the second Host identity envelope, at 2001 ms. -/
def guestStepTwo : (AppState × Manager) × List AppEffect :=
  appStep 2001 (some guestChan) guestStepOne.1.1 guestStepOne.1.2 identFromHost

/-- C4, evaluated at a reachable Guest trace: after the two identity
envelopes of the ordinary handshake, the Guest registry holds two entries,
exceeding the one-entry bound the claim states; both records carry the Host
profile under distinct timestamp keys. -/
theorem guest_registry_exceeds_one :
    guestStepTwo.1.1.isHost = false ∧
    guestStepTwo.1.1.peers.length = 2 ∧
    guestStepTwo.1.1.peers.map (fun kp => kp.2.user) = [userHost, userHost] := by
  decide

end LocalChat
